import Mathlib

set_option maxHeartbeats 1000000

/-!
Shallow embedding of the datachannel-wasm handle registry and callback
bridging layer: the C ABI in capi.cpp, the DataChannel implementation in
wasm/src/datachannel.cpp and the WebSocket implementation in
wasm/src/websocket.cpp.  Machine integers are modelled as Int, C byte
buffers as List Nat (a null pointer is Option.none), C++ exceptions as
early-return error codes exactly where capi.cpp's wrap would map them.
-/

-- Status codes from rtc.h lines 122-126.
def RTC_ERR_SUCCESS : Int := 0
def RTC_ERR_INVALID : Int := -1
def RTC_ERR_FAILURE : Int := -2
def RTC_ERR_NOT_AVAIL : Int := -3
def RTC_ERR_TOO_SMALL : Int := -4

/-- Lookup in an association list keyed by Int, mirroring
std::unordered_map::find.  First binding wins. -/
def mapFind {α : Type} : List (Int × α) → Int → Option α
  | [], _ => none
  | (k, v) :: m, i => if k = i then some v else mapFind m i

/-- std::unordered_map::emplace: inserts only when the key is absent. -/
def mapEmplace {α : Type} (m : List (Int × α)) (k : Int) (v : α) :
    List (Int × α) :=
  match mapFind m k with
  | some _ => m
  | none => (k, v) :: m

/-- std::unordered_map::operator[] followed by assignment: overwrites the
binding when present, inserts otherwise. -/
def mapAssign {α : Type} : List (Int × α) → Int → α → List (Int × α)
  | [], i, v => [(i, v)]
  | (k, w) :: m, i, v =>
    if k = i then (i, v) :: m else (k, w) :: mapAssign m i v

/-- std::unordered_map::erase by key (all bindings for the key go). -/
def mapEraseKey {α : Type} : List (Int × α) → Int → List (Int × α)
  | [], _ => []
  | (k', v) :: m, k =>
    if k' = k then mapEraseKey m k else (k', v) :: mapEraseKey m k

/-- In-place mutation of the value stored under a key, used to model
mutation of a registry-held channel object through its shared_ptr. -/
def mapUpdate {α : Type} : List (Int × α) → Int → (α → α) → List (Int × α)
  | [], _, _ => []
  | (k, v) :: m, i, f =>
    if k = i then (k, f v) :: m else (k, v) :: mapUpdate m i f

/-- Message payload variant: an explicit two-case tag, as carried by
rtc::message_variant (std::variant over binary and string). -/
inductive Msg where
  | bin (b : List Nat)
  | txt (s : List Nat)
  deriving DecidableEq

/-- Whether a payload is the Binary variant. -/
def Msg.isBin : Msg → Bool
  | .bin _ => true
  | .txt _ => false

/-- Boundary encoding of a delivered message, from the two lambdas of
rtcSetMessageCallback (capi.cpp lines 458-475): a binary payload is the
raw bytes with size field equal to its length; a text payload is passed
as its c_str buffer (bytes plus a NUL terminator) with size field
-(length + 1). -/
def encodeMsg : Msg → List Nat × Int
  | .bin b => (b, (b.length : Int))
  | .txt s => (s ++ [0], -((s.length : Int) + 1))

/-- Boundary decoding of a (data, size) pair with non-null data, from
rtcSendMessage (capi.cpp lines 484-489) and DataChannel::MessageCallback
(datachannel.cpp lines 66-72): a non-negative size yields a binary
payload of exactly size bytes read from data; a negative size yields a
text payload read from data as a NUL-terminated C string. -/
def decodeMsg (data : List Nat) (size : Int) : Msg :=
  if 0 ≤ size then .bin (data.take size.toNat)
  else .txt (data.takeWhile (fun c => decide (c ≠ 0)))

/-- String overload of copyAndReturn (capi.cpp lines 134-144).  The
buffer contents are returned alongside the status: a null buffer asks
for the required capacity (length + 1); an undersized buffer yields
RTC_ERR_TOO_SMALL with no write; otherwise the string plus a NUL
terminator are written and length + 1 is returned. -/
def copyAndReturnString (s : List Nat) (buffer : Option (List Nat))
    (size : Int) : Int × Option (List Nat) :=
  match buffer with
  | none => ((s.length : Int) + 1, none)
  | some b =>
    if size < (s.length : Int) + 1 then (RTC_ERR_TOO_SMALL, some b)
    else ((s.length : Int) + 1, some ((s ++ [0]) ++ b.drop (s.length + 1)))

/-- Binary overload of copyAndReturn (capi.cpp lines 146-156): required
capacity is exactly the payload length and no terminator is appended. -/
def copyAndReturnBinary (bin : List Nat) (buffer : Option (List Nat))
    (size : Int) : Int × Option (List Nat) :=
  match buffer with
  | none => ((bin.length : Int), none)
  | some b =>
    if size < (bin.length : Int) then (RTC_ERR_TOO_SMALL, some b)
    else ((bin.length : Int), some (bin ++ b.drop bin.length))

example : copyAndReturnString [65, 66] none (-3) = (3, none) := by decide
example : copyAndReturnString [65, 66] (some [9, 9, 9]) 2 =
    (RTC_ERR_TOO_SMALL, some [9, 9, 9]) := by decide
example : copyAndReturnString [65, 66] (some [9, 9, 9]) 3 =
    (3, some [65, 66, 0]) := by decide
example : copyAndReturnBinary [65, 66] (some [9, 9, 9]) 2 =
    (2, some [65, 66, 9]) := by decide
example : decodeMsg [65, 66] 2 = .bin [65, 66] := by decide
example : decodeMsg [65, 0] (-3) = .txt [65] := by decide

/-- Event kinds for which a channel stores at most one client callback
(rtc.h: open, closed, error, message, buffered-amount-low). -/
inductive EventKind where
  | openK
  | closedK
  | errorK
  | messageK
  | lowK
  deriving DecidableEq

/-- The observable state of a channel object shared by DataChannel
(datachannel.cpp) and WebSocket (websocket.cpp): the host-side transport
id mId (0 meaning released), the connected flag mConnected, the cached
label (DataChannel only), and the stored client callback per event kind.
A callback is modelled by the non-zero client function pointer value;
none models a cleared callback.  The callback storage itself lives in
channel.cpp, which is absent from src; it is modelled from the spec:
at most one callback per event kind, registering null clears it,
re-registering replaces it. -/
structure ChanObj where
  mId : Int
  mConnected : Bool
  mLabel : List Nat := []
  openCb : Option Int := none
  closedCb : Option Int := none
  errorCb : Option Int := none
  messageCb : Option Int := none
  lowCb : Option Int := none
  deriving DecidableEq

/-- DataChannel::close (datachannel.cpp lines 101-107): clears the
connected flag and releases the transport handle.  The host-side
js_rtcDeleteDataChannel call is recorded by the caller. -/
def DataChannel_close (c : ChanObj) : ChanObj :=
  { c with mConnected := false, mId := 0 }

/-- WebSocket::close (websocket.cpp lines 97-103): identical shape, the
host call being emscripten_websocket_close. -/
def WebSocket_close (c : ChanObj) : ChanObj :=
  { c with mConnected := false, mId := 0 }

/-- DataChannel::isOpen (datachannel.cpp line 129). -/
def DataChannel_isOpen (c : ChanObj) : Bool := c.mConnected

/-- DataChannel::isClosed (datachannel.cpp line 131). -/
def DataChannel_isClosed (c : ChanObj) : Bool := c.mId = 0

/-- WebSocket::isOpen (websocket.cpp line 105). -/
def WebSocket_isOpen (c : ChanObj) : Bool := c.mConnected

/-- WebSocket::isClosed (websocket.cpp line 107). -/
def WebSocket_isClosed (c : ChanObj) : Bool := c.mId = 0

/-- DataChannel::triggerOpen (datachannel.cpp lines 173-176): sets the
connected flag unconditionally, then forwards to Channel::triggerOpen. -/
def DataChannel_triggerOpen (c : ChanObj) : ChanObj :=
  { c with mConnected := true }

/-- WebSocket::triggerOpen (websocket.cpp lines 131-134): same shape. -/
def WebSocket_triggerOpen (c : ChanObj) : ChanObj :=
  { c with mConnected := true }

/-- Calls the channel makes out to the Host Adapter. -/
inductive HostCall where
  | jsSend (id : Int) (buf : List Nat) (size : Int)
  | wsSendBin (id : Int) (buf : List Nat)
  | wsSendTxt (id : Int) (buf : List Nat)
  | jsDeleteDC (id : Int)
  | wsCloseH (id : Int)
  | jsSetThreshold (id : Int) (amount : Int)
  | jsGetBufferedAmount (id : Int)
  | jsGetLocalDesc (id : Int)
  deriving DecidableEq

/-- DataChannel::send on a message_variant (datachannel.cpp lines
109-120): fails returning false with no host call when the transport
handle is released; otherwise forwards a binary payload via
js_rtcSendMessage with the payload length as size, and a text payload
as its c_str buffer with size -1.  hostRet is the Host Adapter's return
value for js_rtcSendMessage. -/
def DataChannel_send (c : ChanObj) (m : Msg) (hostRet : Int) :
    Bool × Option HostCall :=
  if c.mId = 0 then (false, none)
  else
    match m with
    | .bin b => (0 ≤ hostRet, some (.jsSend c.mId b (b.length : Int)))
    | .txt s => (0 ≤ hostRet, some (.jsSend c.mId (s ++ [0]) (-1)))

/-- WebSocket::send on a message_variant (websocket.cpp lines 109-122):
fails returning false with no host call when the transport handle is
released; otherwise a binary payload goes out through
emscripten_websocket_send_binary and a text payload through
emscripten_websocket_send_utf8_text. -/
def WebSocket_send (c : ChanObj) (m : Msg) (hostRet : Int) :
    Bool × Option HostCall :=
  if c.mId = 0 then (false, none)
  else
    match m with
    | .bin b => (0 ≤ hostRet, some (.wsSendBin c.mId b))
    | .txt s => (0 ≤ hostRet, some (.wsSendTxt c.mId s))

/-- Channel-level events a trigger can emit towards the stored client
callbacks (dispatched further by the Callback Bridge). -/
inductive ChanEvtOut where
  | openedOut
  | closedOut
  | errorOut (msg : List Nat)
  | messageOut (m : Msg)
  | lowOut
  deriving DecidableEq

/-- DataChannel::MessageCallback on a channel object (datachannel.cpp
lines 63-78): with non-null data the payload is decoded by sign of size
and delivered as a Message event, leaving the channel state untouched;
with null data the channel is closed and then exactly one Closed event
is emitted. -/
def DataChannel_messageCallback (c : ChanObj) (data : Option (List Nat))
    (size : Int) : ChanObj × List ChanEvtOut :=
  match data with
  | some d => (c, [.messageOut (decodeMsg d size)])
  | none => (DataChannel_close c, [.closedOut])

/-- WebSocket::MessageCallback (websocket.cpp lines 58-76): same shape,
null event data closes the socket and emits exactly one Closed event. -/
def WebSocket_messageCallback (c : ChanObj) (data : Option (List Nat))
    (size : Int) : ChanObj × List ChanEvtOut :=
  match data with
  | some d => (c, [.messageOut (decodeMsg d size)])
  | none => (WebSocket_close c, [.closedOut])

/-- Stores a client callback for an event kind, following the
rtcSetOpenCallback/rtcSetClosedCallback/rtcSetErrorCallback/
rtcSetMessageCallback/rtcSetBufferedAmountLowCallback pattern
(capi.cpp lines 416-475 and 534-546): a null (zero) function pointer
clears the stored callback, a non-null one replaces it. -/
def setChanCb (c : ChanObj) (k : EventKind) (cb : Int) : ChanObj :=
  let v : Option Int := if cb = 0 then none else some cb
  match k with
  | .openK => { c with openCb := v }
  | .closedK => { c with closedCb := v }
  | .errorK => { c with errorCb := v }
  | .messageK => { c with messageCb := v }
  | .lowK => { c with lowCb := v }

/-- Operations and host-delivered events acting on one channel object,
covering the whole channel-facing surface of the ABI plus the
host-adapter callbacks of datachannel.cpp. -/
inductive ChanAct where
  | closeA
  | sendA (m : Msg) (hostRet : Int)
  | openEvt
  | errorEvt (msg : List Nat)
  | msgEvt (data : Option (List Nat)) (size : Int)
  | lowEvt
  | setThresholdA (amount : Int)
  | setCbA (k : EventKind) (cb : Int)
  deriving DecidableEq

/-- State transition of a DataChannel object under each modelled action:
close closes, a host open confirmation runs triggerOpen, a host message
event runs MessageCallback, and the remaining actions leave mId and
mConnected untouched. -/
def chanStep (c : ChanObj) : ChanAct → ChanObj
  | .closeA => DataChannel_close c
  | .sendA _ _ => c
  | .openEvt => DataChannel_triggerOpen c
  | .errorEvt _ => c
  | .msgEvt d s => (DataChannel_messageCallback c d s).1
  | .lowEvt => c
  | .setThresholdA _ => c
  | .setCbA k cb => setChanCb c k cb

example :
    DataChannel_isOpen (chanStep (DataChannel_close ⟨5, true, [], none,
      none, none, none, none⟩) .openEvt) = true := by decide

/-- The global registry state of capi.cpp lines 29-36: one map per
resource kind, the independent user-pointer map, and the shared handle
counter lastId.  A PeerConnection carries no state relevant to the
claims and is modelled as Unit; a user pointer is the Int value of the
client void pointer (0 models nullptr, stored as a real entry). -/
structure RegState where
  peerConnectionMap : List (Int × Unit)
  dataChannelMap : List (Int × ChanObj)
  webSocketMap : List (Int × ChanObj)
  userPointerMap : List (Int × Int)
  lastId : Int
  deriving DecidableEq

/-- The initial state: all maps empty, lastId zero. -/
def initRegState : RegState := ⟨[], [], [], [], 0⟩

/-- getUserPointer (capi.cpp lines 38-42): an optional, present exactly
when the map holds an entry for the id (the stored pointer may be 0). -/
def getUserPointer (st : RegState) (i : Int) : Option Int :=
  mapFind st.userPointerMap i

/-- setUserPointer (capi.cpp lines 44-47): unconditional assignment into
the user-pointer map, independent of any resource map. -/
def setUserPointer (st : RegState) (i : Int) (ptr : Int) : RegState :=
  { st with userPointerMap := mapAssign st.userPointerMap i ptr }

/-- emplacePeerConnection (capi.cpp lines 65-71): assigns the
incremented counter as handle and inserts the resource together with a
null user-pointer entry. -/
def emplacePeerConnection (st : RegState) : Int × RegState :=
  let pc := st.lastId + 1
  (pc, { st with
    lastId := pc
    peerConnectionMap := mapEmplace st.peerConnectionMap pc ()
    userPointerMap := mapEmplace st.userPointerMap pc 0 })

/-- emplaceDataChannel (capi.cpp lines 73-79). -/
def emplaceDataChannel (st : RegState) (c : ChanObj) : Int × RegState :=
  let dc := st.lastId + 1
  (dc, { st with
    lastId := dc
    dataChannelMap := mapEmplace st.dataChannelMap dc c
    userPointerMap := mapEmplace st.userPointerMap dc 0 })

/-- emplaceWebSocket (capi.cpp lines 189-195). -/
def emplaceWebSocket (st : RegState) (c : ChanObj) : Int × RegState :=
  let ws := st.lastId + 1
  (ws, { st with
    lastId := ws
    webSocketMap := mapEmplace st.webSocketMap ws c
    userPointerMap := mapEmplace st.userPointerMap ws 0 })

/-- Which map a channel handle resolved into. -/
inductive ChanKind where
  | dcK
  | wsK
  deriving DecidableEq

/-- getChannel (capi.cpp lines 108-117): the data-channel map is probed
first, then the web-socket map; none models the thrown
invalid_argument. -/
def getChannelObj (st : RegState) (id : Int) : Option (ChanKind × ChanObj) :=
  match mapFind st.dataChannelMap id with
  | some c => some (.dcK, c)
  | none =>
    match mapFind st.webSocketMap id with
    | some c => some (.wsK, c)
    | none => none

/-- Mutation of a registry-held channel object through its shared_ptr. -/
def updateChan (st : RegState) (ck : ChanKind) (id : Int)
    (f : ChanObj → ChanObj) : RegState :=
  match ck with
  | .dcK => { st with dataChannelMap := mapUpdate st.dataChannelMap id f }
  | .wsK => { st with webSocketMap := mapUpdate st.webSocketMap id f }

/-- erasePeerConnection (capi.cpp lines 81-86): removes the resource and
its user-pointer entry together. -/
def erasePeerConnection (st : RegState) (pc : Int) : RegState :=
  { st with
    peerConnectionMap := mapEraseKey st.peerConnectionMap pc
    userPointerMap := mapEraseKey st.userPointerMap pc }

/-- eraseDataChannel (capi.cpp lines 88-93). -/
def eraseDataChannel (st : RegState) (dc : Int) : RegState :=
  { st with
    dataChannelMap := mapEraseKey st.dataChannelMap dc
    userPointerMap := mapEraseKey st.userPointerMap dc }

/-- eraseWebSocket (capi.cpp lines 197-202). -/
def eraseWebSocket (st : RegState) (ws : Int) : RegState :=
  { st with
    webSocketMap := mapEraseKey st.webSocketMap ws
    userPointerMap := mapEraseKey st.userPointerMap ws }

/-- eraseChannel (capi.cpp lines 119-132): erases from whichever channel
map holds the handle, together with the user-pointer entry; none models
the thrown invalid_argument when neither map holds it. -/
def eraseChannel (st : RegState) (id : Int) : Option RegState :=
  match mapFind st.dataChannelMap id with
  | some _ => some (eraseDataChannel st id)
  | none =>
    match mapFind st.webSocketMap id with
    | some _ => some (eraseWebSocket st id)
    | none => none

/-- A handle with no currently registered resource of any kind. -/
def deadAll (st : RegState) (h : Int) : Prop :=
  mapFind st.peerConnectionMap h = none ∧
  mapFind st.dataChannelMap h = none ∧
  mapFind st.webSocketMap h = none

instance (st : RegState) (h : Int) : Decidable (deadAll st h) := by
  unfold deadAll
  infer_instance

/-- The message handed to Channel::send by rtcSendMessage (capi.cpp
lines 477-492): none models the invalid_argument thrown on a null data
pointer with nonzero size; otherwise the (data, size) pair is decoded by
the sign convention, a null data pointer with size 0 standing for an
empty binary payload. -/
def sendMessageArg (data : Option (List Nat)) (size : Int) : Option Msg :=
  match data with
  | none => if size ≠ 0 then none else some (decodeMsg [] size)
  | some d => some (decodeMsg d size)

example : sendMessageArg none 0 = some (.bin []) := by decide
example : sendMessageArg none 3 = none := by decide
example : sendMessageArg none (-1) = none := by decide

/-- The status-returning ABI operations of capi.cpp modelled here.  Host
Adapter responses consumed by an operation are carried as parameters of
the operation itself (hostOk, supported, jsId, hostDesc, hostRet), since
the single-threaded host supplies them synchronously at the call. -/
inductive ApiOp where
  | createPC (hostOk : Bool)
  | createDC (pc : Int) (bothLimits : Bool) (jsId : Int) (label : List Nat)
  | createWS (supported : Bool) (jsId : Int)
  | closePC (pc : Int)
  | deletePC (pc : Int)
  | getLocalDesc (pc : Int) (hostDesc : Option (List Nat))
      (buffer : Option (List Nat)) (size : Int)
  | setCb (id : Int) (k : EventKind) (cb : Int)
  | sendMsg (id : Int) (data : Option (List Nat)) (size : Int) (hostRet : Int)
  | closeChan (id : Int)
  | deleteChan (id : Int)
  | getBufAmt (id : Int) (hostRet : Int)
  | setLowThreshold (id : Int) (amount : Int)
  | deleteDC (dc : Int)
  | getDCLabel (dc : Int) (buffer : Option (List Nat)) (size : Int)
  | deleteWS (ws : Int)
  deriving DecidableEq

/-- The creation operations among the modelled ABI operations. -/
def isCreate : ApiOp → Bool
  | .createPC _ => true
  | .createDC _ _ _ _ => true
  | .createWS _ _ => true
  | _ => false

/-- The handle an operation resolves through the resource registry
before doing anything else, when it resolves one. -/
def opHandle : ApiOp → Option Int
  | .createPC _ => none
  | .createDC pc _ _ _ => some pc
  | .createWS _ _ => none
  | .closePC pc => some pc
  | .deletePC pc => some pc
  | .getLocalDesc pc _ _ _ => some pc
  | .setCb id _ _ => some id
  | .sendMsg id _ _ _ => some id
  | .closeChan id => some id
  | .deleteChan id => some id
  | .getBufAmt id _ => some id
  | .setLowThreshold id _ => some id
  | .deleteDC dc => some dc
  | .getDCLabel dc _ _ => some dc
  | .deleteWS ws => some ws

/-- Executes one ABI operation: the status returned through wrap
(capi.cpp lines 168-177, mapping invalid_argument to RTC_ERR_INVALID and
other exceptions to RTC_ERR_FAILURE), the new registry state, and the
calls made out to the Host Adapter.  Each case mirrors the body of the
corresponding capi.cpp function:
createPC = rtcCreatePeerConnection (lines 212-219, the PeerConnection
  constructor throwing runtime_error when the host rejects creation);
createDC = rtcCreateDataChannelEx resolving the peer connection, running
  PeerConnection::createDataChannel (peerconnection.cpp lines 824-836,
  which throws invalid_argument when maxPacketLifeTime and maxRetransmits
  are both set) and registering the new channel via emplaceDataChannel;
  the glue body of rtcCreateDataChannelEx itself is absent from src and
  is modelled from the spec: Registry create constructs the resource,
  propagates constructor failures unchanged, and only then assigns the
  next counter value;
createWS = rtcCreateWebSocket (lines 593-599, WebSocket::open throwing
  runtime_error when web sockets are unsupported);
closePC/deletePC = rtcClosePeerConnection/rtcDeletePeerConnection (lines
  221-236, PeerConnection::close being a no-op in the wasm backend);
getLocalDesc = rtcGetLocalDescription (lines 372-381);
setCb = the five callback registration functions (lines 416-475,
  534-546); sendMsg = rtcSendMessage (lines 477-492);
closeChan/deleteChan = rtcClose/rtcDelete (lines 494-509);
getBufAmt = rtcGetBufferedAmount (lines 519-524) over
  DataChannel::bufferedAmount (datachannel.cpp lines 133-142, degrading
  a negative host answer to 0);
setLowThreshold = rtcSetBufferedAmountLowThreshold (lines 526-532) over
  DataChannel::setBufferedAmountLowThreshold (datachannel.cpp lines
  166-171);
deleteDC = rtcDeleteDataChannel (lines 552-559);
getDCLabel = rtcGetDataChannelLabel (lines 561-566);
deleteWS = rtcDeleteWebSocket (lines 601-608). -/
def runOp (op : ApiOp) (st : RegState) : Int × RegState × List HostCall :=
  match op with
  | .createPC hostOk =>
    if hostOk then
      let r := emplacePeerConnection st
      (r.1, r.2, [])
    else (RTC_ERR_FAILURE, st, [])
  | .createDC pc bothLimits jsId label =>
    match mapFind st.peerConnectionMap pc with
    | none => (RTC_ERR_INVALID, st, [])
    | some _ =>
      if bothLimits then (RTC_ERR_INVALID, st, [])
      else
        let r := emplaceDataChannel st
          { mId := jsId, mConnected := false, mLabel := label }
        (r.1, r.2, [])
  | .createWS supported jsId =>
    if supported then
      let r := emplaceWebSocket st { mId := jsId, mConnected := false }
      (r.1, r.2, [])
    else (RTC_ERR_FAILURE, st, [])
  | .closePC pc =>
    match mapFind st.peerConnectionMap pc with
    | none => (RTC_ERR_INVALID, st, [])
    | some _ => (RTC_ERR_SUCCESS, st, [])
  | .deletePC pc =>
    match mapFind st.peerConnectionMap pc with
    | none => (RTC_ERR_INVALID, st, [])
    | some _ => (RTC_ERR_SUCCESS, erasePeerConnection st pc, [])
  | .getLocalDesc pc hostDesc buffer size =>
    match mapFind st.peerConnectionMap pc with
    | none => (RTC_ERR_INVALID, st, [])
    | some _ =>
      match hostDesc with
      | none => (RTC_ERR_NOT_AVAIL, st, [.jsGetLocalDesc pc])
      | some d =>
        ((copyAndReturnString d buffer size).1, st, [.jsGetLocalDesc pc])
  | .setCb id k cb =>
    match getChannelObj st id with
    | none => (RTC_ERR_INVALID, st, [])
    | some (ck, _) =>
      (RTC_ERR_SUCCESS, updateChan st ck id (fun c => setChanCb c k cb), [])
  | .sendMsg id data size hostRet =>
    match getChannelObj st id with
    | none => (RTC_ERR_INVALID, st, [])
    | some (ck, c) =>
      match sendMessageArg data size with
      | none => (RTC_ERR_INVALID, st, [])
      | some m =>
        let r := match ck with
          | .dcK => DataChannel_send c m hostRet
          | .wsK => WebSocket_send c m hostRet
        (RTC_ERR_SUCCESS, st, r.2.toList)
  | .closeChan id =>
    match getChannelObj st id with
    | none => (RTC_ERR_INVALID, st, [])
    | some (ck, c) =>
      (RTC_ERR_SUCCESS, updateChan st ck id DataChannel_close,
        if c.mId = 0 then []
        else match ck with
          | .dcK => [.jsDeleteDC c.mId]
          | .wsK => [.wsCloseH c.mId])
  | .deleteChan id =>
    match getChannelObj st id with
    | none => (RTC_ERR_INVALID, st, [])
    | some (ck, c) =>
      let st1 := match ck with
        | .dcK => eraseDataChannel st id
        | .wsK => eraseWebSocket st id
      (RTC_ERR_SUCCESS, st1,
        if c.mId = 0 then []
        else match ck with
          | .dcK => [.jsDeleteDC c.mId]
          | .wsK => [.wsCloseH c.mId])
  | .getBufAmt id hostRet =>
    match getChannelObj st id with
    | none => (RTC_ERR_INVALID, st, [])
    | some (_, c) =>
      if c.mId = 0 then (0, st, [])
      else (if hostRet < 0 then 0 else hostRet, st,
        [.jsGetBufferedAmount c.mId])
  | .setLowThreshold id amount =>
    match getChannelObj st id with
    | none => (RTC_ERR_INVALID, st, [])
    | some (_, c) =>
      if c.mId = 0 then (RTC_ERR_SUCCESS, st, [])
      else (RTC_ERR_SUCCESS, st, [.jsSetThreshold c.mId amount])
  | .deleteDC dc =>
    match mapFind st.dataChannelMap dc with
    | none => (RTC_ERR_INVALID, st, [])
    | some c =>
      (RTC_ERR_SUCCESS, eraseDataChannel st dc,
        if c.mId = 0 then [] else [.jsDeleteDC c.mId])
  | .getDCLabel dc buffer size =>
    match mapFind st.dataChannelMap dc with
    | none => (RTC_ERR_INVALID, st, [])
    | some c => ((copyAndReturnString c.mLabel buffer size).1, st, [])
  | .deleteWS ws =>
    match mapFind st.webSocketMap ws with
    | none => (RTC_ERR_INVALID, st, [])
    | some c =>
      (RTC_ERR_SUCCESS, eraseWebSocket st ws,
        if c.mId = 0 then [] else [.wsCloseH c.mId])

/-- rtcIsOpen (capi.cpp lines 511-513): the wrapped lambda maps isOpen
to 0 or 1; wrap turns the invalid-handle fault into RTC_ERR_INVALID; the
result is compared with 0 to produce the ABI bool. -/
def rtcIsOpen (st : RegState) (id : Int) : Bool :=
  (match getChannelObj st id with
   | none => RTC_ERR_INVALID
   | some (_, c) => if c.mConnected then 0 else 1) = 0

/-- rtcIsClosed (capi.cpp lines 515-517): same shape over isClosed. -/
def rtcIsClosed (st : RegState) (id : Int) : Bool :=
  (match getChannelObj st id with
   | none => RTC_ERR_INVALID
   | some (_, c) => if c.mId = 0 then 0 else 1) = 0

example : rtcIsOpen initRegState 3 = false := by decide
example : rtcIsClosed initRegState 3 = false := by decide

/-- An in-flight host event, carrying the handle captured by the closure
that the corresponding rtcSet...Callback registered on the channel. -/
inductive PendingEvent where
  | openP (id : Int)
  | closedP (id : Int)
  | errorP (id : Int) (msg : List Nat)
  | messageP (id : Int) (m : Msg)
  | lowP (id : Int)
  deriving DecidableEq

/-- The handle an in-flight event is addressed to. -/
def eventId : PendingEvent → Int
  | .openP id => id
  | .closedP id => id
  | .errorP id _ => id
  | .messageP id _ => id
  | .lowP id => id

/-- A client-visible callback invocation: the stored client function
pointer cb applied to the handle, the event payload, and the user
pointer fetched at dispatch time. -/
inductive ClientCall where
  | onOpen (cb : Int) (id : Int) (ptr : Int)
  | onClosed (cb : Int) (id : Int) (ptr : Int)
  | onError (cb : Int) (id : Int) (msg : List Nat) (ptr : Int)
  | onMessage (cb : Int) (id : Int) (buf : List Nat) (size : Int) (ptr : Int)
  | onLow (cb : Int) (id : Int) (ptr : Int)
  deriving DecidableEq

/-- Dispatch of an in-flight event by the closures of capi.cpp lines
416-475 and 534-546: every one of the five closures fetches the user
pointer for its captured handle from the registry at dispatch time and
invokes the client callback only when the optional holds a value,
silently dropping the event otherwise; a message payload crosses the
boundary through encodeMsg. -/
def dispatch (st : RegState) (cb : Int) (e : PendingEvent) :
    Option ClientCall :=
  match mapFind st.userPointerMap (eventId e) with
  | none => none
  | some ptr =>
    some (match e with
      | .openP id => .onOpen cb id ptr
      | .closedP id => .onClosed cb id ptr
      | .errorP id s => .onError cb id s ptr
      | .messageP id m => .onMessage cb id (encodeMsg m).1 (encodeMsg m).2 ptr
      | .lowP id => .onLow cb id ptr)

/-- Runs a list of ABI operations from a state, collecting the handles
returned by successful creation operations in order. -/
def execTrace (st : RegState) : List ApiOp → RegState × List Int
  | [] => (st, [])
  | op :: ops =>
    ((execTrace (runOp op st).2.1 ops).1,
      if isCreate op && decide (0 < (runOp op st).1) then
        (runOp op st).1 :: (execTrace (runOp op st).2.1 ops).2
      else (execTrace (runOp op st).2.1 ops).2)

/-- All keys of a map are positive and bounded by the counter value. -/
def keysBound {α : Type} (m : List (Int × α)) (n : Int) : Prop :=
  ∀ p ∈ m, 0 < p.1 ∧ p.1 ≤ n

/-- Registry invariant: a non-negative counter, every resource key
positive and within the counter, and no handle present in two resource
maps at once. -/
def goodState (st : RegState) : Prop :=
  0 ≤ st.lastId ∧
  keysBound st.peerConnectionMap st.lastId ∧
  keysBound st.dataChannelMap st.lastId ∧
  keysBound st.webSocketMap st.lastId ∧
  (∀ p ∈ st.dataChannelMap, mapFind st.peerConnectionMap p.1 = none ∧
    mapFind st.webSocketMap p.1 = none) ∧
  (∀ p ∈ st.peerConnectionMap, mapFind st.webSocketMap p.1 = none)

instance {α : Type} (m : List (Int × α)) (n : Int) :
    Decidable (keysBound m n) := by
  unfold keysBound
  infer_instance

instance (st : RegState) : Decidable (goodState st) := by
  unfold goodState
  infer_instance

example : goodState initRegState := by decide

theorem mapFind_none_of_keysBound {α : Type} {m : List (Int × α)} {n k : Int}
    (hb : keysBound m n) (hk : n < k) : mapFind m k = none := by
  induction m with
  | nil => rfl
  | cons p m ih =>
    obtain ⟨k', v⟩ := p
    have hp := hb (k', v) (by simp)
    have hrest : keysBound m n := fun q hq => hb q (by simp [hq])
    simp only [mapFind]
    rw [if_neg, ih hrest]
    omega

theorem keysBound_mono {α : Type} {m : List (Int × α)} {n n' : Int}
    (hb : keysBound m n) (h : n ≤ n') : keysBound m n' :=
  fun p hp => ⟨(hb p hp).1, le_trans (hb p hp).2 h⟩

theorem mem_mapEraseKey {α : Type} {m : List (Int × α)} {k : Int}
    {p : Int × α} (hp : p ∈ mapEraseKey m k) : p ∈ m := by
  induction m with
  | nil => simp [mapEraseKey] at hp
  | cons q m ih =>
    obtain ⟨k', v⟩ := q
    simp only [mapEraseKey] at hp
    by_cases hk : k' = k
    · rw [if_pos hk] at hp
      exact List.mem_cons_of_mem _ (ih hp)
    · rw [if_neg hk] at hp
      rcases List.mem_cons.mp hp with h | h
      · exact List.mem_cons.mpr (Or.inl h)
      · exact List.mem_cons_of_mem _ (ih h)

theorem keysBound_eraseKey {α : Type} {m : List (Int × α)} {n k : Int}
    (hb : keysBound m n) : keysBound (mapEraseKey m k) n :=
  fun p hp => hb p (mem_mapEraseKey hp)

theorem mem_mapUpdate {α : Type} {m : List (Int × α)} {i : Int}
    {f : α → α} {p : Int × α} (hp : p ∈ mapUpdate m i f) :
    ∃ v, (p.1, v) ∈ m := by
  induction m with
  | nil => simp [mapUpdate] at hp
  | cons q m ih =>
    obtain ⟨k, v⟩ := q
    simp only [mapUpdate] at hp
    by_cases hk : k = i
    · rw [if_pos hk] at hp
      rcases List.mem_cons.mp hp with h | h
      · exact ⟨v, by simp [h]⟩
      · exact ⟨p.2, by simp [h]⟩
    · rw [if_neg hk] at hp
      rcases List.mem_cons.mp hp with h | h
      · exact ⟨v, by simp [h]⟩
      · obtain ⟨w, hw⟩ := ih h
        exact ⟨w, by simp [hw]⟩

theorem keysBound_mapUpdate {α : Type} {m : List (Int × α)} {n i : Int}
    {f : α → α} (hb : keysBound m n) : keysBound (mapUpdate m i f) n := by
  intro p hp
  obtain ⟨v, hv⟩ := mem_mapUpdate hp
  exact hb (p.1, v) hv

theorem mapFind_eraseKey_self {α : Type} (m : List (Int × α)) (k : Int) :
    mapFind (mapEraseKey m k) k = none := by
  induction m with
  | nil => rfl
  | cons p m ih =>
    obtain ⟨k', v⟩ := p
    simp only [mapEraseKey]
    by_cases hk : k' = k
    · rw [if_pos hk]
      exact ih
    · rw [if_neg hk]
      simpa [mapFind, hk] using ih

theorem mapFind_eraseKey_ne {α : Type} (m : List (Int × α)) {k i : Int}
    (h : i ≠ k) : mapFind (mapEraseKey m k) i = mapFind m i := by
  induction m with
  | nil => rfl
  | cons p m ih =>
    obtain ⟨k', v⟩ := p
    simp only [mapEraseKey]
    by_cases hk : k' = k
    · rw [if_pos hk]
      have hki : ¬ k' = i := by rw [hk]; exact fun hh => h hh.symm
      simpa [mapFind, hki] using ih
    · rw [if_neg hk]
      by_cases hi : k' = i
      · simp [mapFind, hi]
      · simpa [mapFind, hi] using ih

theorem mapFind_eraseKey_none {α : Type} {m : List (Int × α)} {k i : Int}
    (h : mapFind m i = none) : mapFind (mapEraseKey m k) i = none := by
  by_cases hik : i = k
  · simpa [hik] using mapFind_eraseKey_self m k
  · rw [mapFind_eraseKey_ne m hik]
    exact h

theorem mapFind_mapUpdate_none {α : Type} {m : List (Int × α)} {j i : Int}
    {f : α → α} (h : mapFind m i = none) :
    mapFind (mapUpdate m j f) i = none := by
  induction m with
  | nil => rfl
  | cons p m ih =>
    obtain ⟨k, v⟩ := p
    simp only [mapFind] at h
    by_cases hki : k = i
    · simp [hki] at h
    · rw [if_neg hki] at h
      simp only [mapUpdate]
      by_cases hkj : k = j
      · rw [if_pos hkj]
        simp [mapFind, hki, h]
      · rw [if_neg hkj]
        simp [mapFind, hki, ih h]

theorem mapEmplace_not_found {α : Type} {m : List (Int × α)} {k : Int}
    (v : α) (h : mapFind m k = none) : mapEmplace m k v = (k, v) :: m := by
  simp [mapEmplace, h]

theorem takeWhileNZ (s : List Nat) (h : 0 ∉ s) :
    (s ++ [0]).takeWhile (fun c => decide (c ≠ 0)) = s := by
  induction s with
  | nil => simp [List.takeWhile]
  | cons a s ih =>
    have ha : a ≠ 0 := fun hh => h (by simp [hh])
    have hs : 0 ∉ s := fun hh => h (by simp [hh])
    rw [List.cons_append, List.takeWhile_cons, if_pos (by simp [ha]), ih hs]

/-- C2: for a string of length L, copyAndReturn with a null buffer
returns L + 1 and writes nothing; with a non-null buffer of insufficient
capacity it returns TooSmall and leaves the buffer untouched; with
sufficient capacity it writes the L characters followed by a NUL
terminator at position L and returns L + 1; the binary overload behaves
identically with required capacity exactly L and no terminator. -/
theorem claim_c2 (s bin b : List Nat) (size : Int) :
    copyAndReturnString s none size = ((s.length : Int) + 1, none) ∧
    (size < (s.length : Int) + 1 →
      copyAndReturnString s (some b) size = (RTC_ERR_TOO_SMALL, some b)) ∧
    ((s.length : Int) + 1 ≤ size →
      copyAndReturnString s (some b) size =
        ((s.length : Int) + 1, some ((s ++ [0]) ++ b.drop (s.length + 1)))) ∧
    copyAndReturnBinary bin none size = ((bin.length : Int), none) ∧
    (size < (bin.length : Int) →
      copyAndReturnBinary bin (some b) size = (RTC_ERR_TOO_SMALL, some b)) ∧
    ((bin.length : Int) ≤ size →
      copyAndReturnBinary bin (some b) size =
        ((bin.length : Int), some (bin ++ b.drop bin.length))) := by
  refine ⟨rfl, ?_, ?_, rfl, ?_, ?_⟩ <;> intro h <;>
    simp [copyAndReturnString, copyAndReturnBinary, h]

theorem claim_c2_witness :
    copyAndReturnString [65] (some [9, 9, 9]) 3 = (2, some [65, 0, 9]) ∧
    copyAndReturnString [65] (some [9, 9, 9]) 1 =
      (RTC_ERR_TOO_SMALL, some [9, 9, 9]) ∧
    copyAndReturnBinary [65] (some [9, 9, 9]) 1 = (1, some [65, 9, 9]) :=
  ⟨(claim_c2 [65] [] [9, 9, 9] 3).2.2.1 (by decide),
   (claim_c2 [65] [] [9, 9, 9] 1).2.1 (by decide),
   (claim_c2 [] [65] [9, 9, 9] 1).2.2.2.2.2 (by decide)⟩

/-- C3 counterexample: encoding then decoding a Text payload containing
an embedded NUL byte does not recover the original bytes, because the
decoder reads the data pointer as a NUL-terminated C string; so the
round trip does not recover the exact original bytes for all L ≥ 0. -/
theorem claim_c3_cex :
    decodeMsg (encodeMsg (.txt [65, 0])).1 (encodeMsg (.txt [65, 0])).2 ≠
      Msg.txt [65, 0] := by decide

/-- C3 as amended: a Text payload of length L crosses the boundary with
size field -(L+1) and a Binary payload of length L with size field L;
the decoder classifies a non-negative size as Binary of that many bytes
and a negative size as Text read as a C string; encoding followed by
decoding recovers the variant and the exact bytes for every Binary
payload and for every Text payload that contains no NUL byte (a Text
payload with an embedded NUL is truncated at it by the C-string read). -/
theorem claim_c3 (s b d : List Nat) (size : Int) :
    (encodeMsg (.txt s)).2 = -((s.length : Int) + 1) ∧
    (encodeMsg (.bin b)).2 = (b.length : Int) ∧
    (0 ≤ size → decodeMsg d size = .bin (d.take size.toNat)) ∧
    (size < 0 →
      decodeMsg d size = .txt (d.takeWhile (fun c => decide (c ≠ 0)))) ∧
    decodeMsg (encodeMsg (.bin b)).1 (encodeMsg (.bin b)).2 = .bin b ∧
    (0 ∉ s →
      decodeMsg (encodeMsg (.txt s)).1 (encodeMsg (.txt s)).2 = .txt s) := by
  refine ⟨rfl, rfl, ?_, ?_, ?_, ?_⟩
  · intro h
    simp [decodeMsg, h]
  · intro h
    simp [decodeMsg]
    omega
  · simp [encodeMsg, decodeMsg]
  · intro h
    show decodeMsg (s ++ [0]) (-((s.length : Int) + 1)) = .txt s
    unfold decodeMsg
    rw [if_neg (by omega), takeWhileNZ s h]

theorem claim_c3_witness :
    (0 : Int) ≤ 2 ∧ decodeMsg [65, 66, 67] 2 = .bin [65, 66] ∧
    decodeMsg (encodeMsg (.txt [65, 66])).1 (encodeMsg (.txt [65, 66])).2 =
      .txt [65, 66] :=
  ⟨by decide, (claim_c3 [] [] [65, 66, 67] 2).2.2.1 (by decide),
   (claim_c3 [65, 66] [] [] 0).2.2.2.2.2 (by decide)⟩

/-- C4: a host-delivered event with a null data pointer, whatever the
size field, is never delivered as a Message event: the channel's close
runs and then exactly one Closed event is emitted, for the DataChannel
and the WebSocket alike. -/
theorem claim_c4 (c : ChanObj) (size : Int) :
    DataChannel_messageCallback c none size =
      (DataChannel_close c, [.closedOut]) ∧
    WebSocket_messageCallback c none size =
      (WebSocket_close c, [.closedOut]) ∧
    DataChannel_isClosed (DataChannel_messageCallback c none size).1 = true ∧
    (∀ m, ChanEvtOut.messageOut m ∉
      (DataChannel_messageCallback c none size).2) ∧
    (∀ m, ChanEvtOut.messageOut m ∉
      (WebSocket_messageCallback c none size).2) := by
  refine ⟨rfl, rfl, by simp [DataChannel_messageCallback,
    DataChannel_isClosed, DataChannel_close], ?_, ?_⟩ <;>
    intro m <;> simp [DataChannel_messageCallback, WebSocket_messageCallback]

/-- C9: for a handle with no currently registered channel, rtcIsOpen and
rtcIsClosed both return false: the invalid-handle fault becomes -1 in
wrap and the comparison with 0 renders it as the same bool as a channel
that is not open, respectively not closed. -/
theorem claim_c9 (st : RegState) (h : Int)
    (hdc : mapFind st.dataChannelMap h = none)
    (hws : mapFind st.webSocketMap h = none) :
    rtcIsOpen st h = false ∧ rtcIsClosed st h = false := by
  simp [rtcIsOpen, rtcIsClosed, getChannelObj, hdc, hws, RTC_ERR_INVALID]

theorem claim_c9_witness :
    mapFind initRegState.dataChannelMap 5 = none ∧
    mapFind initRegState.webSocketMap 5 = none ∧
    (rtcIsOpen initRegState 5 = false ∧ rtcIsClosed initRegState 5 = false) :=
  ⟨rfl, rfl, claim_c9 initRegState 5 rfl rfl⟩

/-- A channel object in the Closed state (transport handle released). -/
def chanClosed0 : ChanObj := ⟨0, false, [], none, none, none, none, none⟩

/-- C6 counterexample: on a channel that is Closed (isClosed true), a
late host open confirmation (triggerOpen) makes isOpen true again, so
Closed is not absorbing for the observable open state. -/
theorem claim_c6_cex :
    DataChannel_isClosed chanClosed0 = true ∧
    DataChannel_isOpen (chanStep chanClosed0 .openEvt) = true := by decide

/-- C6 as amended: the transport-release half of the Closed state is
absorbing: once isClosed() is true no operation or host-delivered event
makes it false again, and no step ever revives a released transport
handle (mId stays unchanged or becomes 0); however a late host open
confirmation unconditionally sets the connected flag, so isOpen() can
become true again on a Closed channel. -/
theorem claim_c6 (c : ChanObj) (a : ChanAct) :
    (DataChannel_isClosed c = true →
      DataChannel_isClosed (chanStep c a) = true) ∧
    ((chanStep c a).mId = c.mId ∨ (chanStep c a).mId = 0) := by
  cases a with
  | closeA => exact ⟨fun _ => by simp [chanStep, DataChannel_close,
      DataChannel_isClosed], Or.inr rfl⟩
  | sendA m r => exact ⟨fun h => h, Or.inl rfl⟩
  | openEvt => exact ⟨fun h => by simpa [chanStep, DataChannel_triggerOpen,
      DataChannel_isClosed] using h, Or.inl rfl⟩
  | errorEvt m => exact ⟨fun h => h, Or.inl rfl⟩
  | msgEvt d s =>
    cases d with
    | none => exact ⟨fun _ => by simp [chanStep, DataChannel_messageCallback,
        DataChannel_close, DataChannel_isClosed], Or.inr rfl⟩
    | some d => exact ⟨fun h => h, Or.inl rfl⟩
  | lowEvt => exact ⟨fun h => h, Or.inl rfl⟩
  | setThresholdA n => exact ⟨fun h => h, Or.inl rfl⟩
  | setCbA k cb =>
    cases k <;> exact ⟨fun h => by simpa [chanStep, setChanCb,
      DataChannel_isClosed] using h, Or.inl rfl⟩

theorem claim_c6_witness :
    DataChannel_isClosed chanClosed0 = true ∧
    DataChannel_isClosed (chanStep chanClosed0 (.sendA (.bin []) 0)) = true :=
  ⟨by decide, (claim_c6 chanClosed0 (.sendA (.bin []) 0)).1 (by decide)⟩

/-- A channel object in the Created state: live transport handle, not
yet confirmed open. -/
def chanCreated0 : ChanObj := ⟨1, false, [], none, none, none, none, none⟩

/-- C7 counterexample: on a channel that is not Open (Created state, no
open confirmation yet) but holds a live transport handle, send forwards
the payload to the Host Adapter and, the host accepting, returns
success, contradicting that send fails and forwards nothing whenever the
channel is not Open. -/
theorem claim_c7_cex :
    DataChannel_isOpen chanCreated0 = false ∧
    DataChannel_send chanCreated0 (.bin [2]) 0 =
      (true, some (.jsSend 1 [2] 1)) := by decide

/-- C7 as amended: send fails returning false and forwards nothing to
the Host Adapter exactly when the transport handle is dead (mId = 0);
the Open state is not consulted; otherwise the payload is forwarded with
its variant preserved: a Binary call goes out as binary (a non-negative
size over the js boundary, the dedicated binary entry point for the web
socket) and a Text call as text (size -1, respectively the utf8 entry
point), never inferred from content. -/
theorem claim_c7 (c : ChanObj) (b s : List Nat) (r : Int) :
    (∀ m : Msg, (DataChannel_send c m r).2 = none ↔ c.mId = 0) ∧
    (∀ m : Msg, (WebSocket_send c m r).2 = none ↔ c.mId = 0) ∧
    (c.mId = 0 → ∀ m : Msg, DataChannel_send c m r = (false, none) ∧
      WebSocket_send c m r = (false, none)) ∧
    (c.mId ≠ 0 →
      DataChannel_send c (.bin b) r =
        (decide (0 ≤ r), some (.jsSend c.mId b (b.length : Int))) ∧
      DataChannel_send c (.txt s) r =
        (decide (0 ≤ r), some (.jsSend c.mId (s ++ [0]) (-1))) ∧
      WebSocket_send c (.bin b) r =
        (decide (0 ≤ r), some (.wsSendBin c.mId b)) ∧
      WebSocket_send c (.txt s) r =
        (decide (0 ≤ r), some (.wsSendTxt c.mId s)) ∧
      (0 ≤ (b.length : Int)) ∧ ((-1 : Int) < 0)) := by
  refine ⟨?_, ?_, ?_, ?_⟩
  · intro m
    by_cases h : c.mId = 0 <;> cases m <;> simp [DataChannel_send, h]
  · intro m
    by_cases h : c.mId = 0 <;> cases m <;> simp [WebSocket_send, h]
  · intro h m
    cases m <;> simp [DataChannel_send, WebSocket_send, h]
  · intro h
    refine ⟨?_, ?_, ?_, ?_, by positivity, by norm_num⟩ <;>
      simp [DataChannel_send, WebSocket_send, h]

theorem claim_c7_witness :
    DataChannel_send ⟨3, true, [], none, none, none, none, none⟩
      (.bin [7]) 0 = (true, some (.jsSend 3 [7] 1)) ∧
    WebSocket_send ⟨3, true, [], none, none, none, none, none⟩
      (.txt [8]) 0 = (true, some (.wsSendTxt 3 [8])) :=
  ⟨by simpa using ((claim_c7 ⟨3, true, [], none, none, none, none, none⟩
      [7] [8] 0).2.2.2 (by decide)).1,
   by simpa using ((claim_c7 ⟨3, true, [], none, none, none, none, none⟩
      [7] [8] 0).2.2.2 (by decide)).2.2.2.1⟩

/-- C1 counterexample: rtcSetUserPointer is an ABI operation invoked on
a handle; on a handle registered to no live resource it neither returns
InvalidHandle (it returns nothing) nor leaves the state unchanged: it
inserts an entry into the user-context map. -/
theorem claim_c1_cex :
    deadAll initRegState 7 ∧ setUserPointer initRegState 7 42 ≠ initRegState := by
  decide

/-- C1 as amended: every modelled ABI operation that resolves its handle
through the resource registry, invoked on a handle registered to no live
resource, returns Invalid (-1), leaves the registry state unchanged, and
makes no call out to the Host Adapter.  The exceptions forced by the
code are rtcSetUserPointer and rtcGetUserPointer, which act on the
independent user-context map without consulting liveness, and the
boolean queries rtcIsOpen and rtcIsClosed, which surface the internal -1
as false. -/
theorem claim_c1 (st : RegState) (h : Int) (op : ApiOp)
    (hd : deadAll st h) (hop : opHandle op = some h) :
    runOp op st = (RTC_ERR_INVALID, st, []) := by
  obtain ⟨hpc, hdc, hws⟩ := hd
  cases op <;> simp only [opHandle, Option.some.injEq, reduceCtorEq] at hop <;>
    subst hop <;> simp [runOp, getChannelObj, hpc, hdc, hws]

theorem claim_c1_witness :
    deadAll initRegState 5 ∧
    runOp (.closeChan 5) initRegState = (RTC_ERR_INVALID, initRegState, []) :=
  ⟨by decide, claim_c1 initRegState 5 (.closeChan 5) (by decide) rfl⟩

/-- Registry state after: create a web socket (handle 1), register it,
delete handle 1 (erasing both its map entries), then call
rtcSetUserPointer(1, 77) again while an event for handle 1 is still in
flight. -/
def c5state : RegState :=
  setUserPointer (runOp (.deleteChan 1)
    (runOp (.createWS true 9) initRegState).2.1).2.1 1 77

/-- C5 counterexample: handle 1 is registered to no live resource, yet
dispatch of an in-flight event for it invokes the stored client
callback, because the dispatch guard consults only the user-context map,
which rtcSetUserPointer repopulated after the erase; so a client
callback can be invoked for a handle not currently registered. -/
theorem claim_c5_cex :
    deadAll c5state 1 ∧
    (dispatch c5state 5 (.messageP 1 (.bin [1]))).isSome = true := by decide

/-- C5 as amended: dispatch of an in-flight event is guarded by the
user-context map, not by resource liveness: the stored client callback
is not invoked whenever the event's handle has no user-context entry,
and in particular erasing the handle through the registry (which removes
its user-context entry together with the resource) makes every
subsequently dispatched in-flight event for it a silent drop — unless
the client re-registers a user pointer for that handle afterwards. -/
theorem claim_c5 (st : RegState) (cb : Int) (e : PendingEvent) :
    (mapFind st.userPointerMap (eventId e) = none →
      dispatch st cb e = none) ∧
    (∀ st', eraseChannel st (eventId e) = some st' →
      dispatch st' cb e = none) := by
  constructor
  · intro h
    simp [dispatch, h]
  · intro st' hef
    unfold eraseChannel at hef
    rcases hdc : mapFind st.dataChannelMap (eventId e) with _ | c
    · rcases hws : mapFind st.webSocketMap (eventId e) with _ | c
      · rw [hdc, hws] at hef
        simp at hef
      · rw [hdc, hws] at hef
        simp only [Option.some.injEq] at hef
        subst hef
        simp [dispatch, eraseWebSocket, mapFind_eraseKey_self]
    · rw [hdc] at hef
      simp only [Option.some.injEq] at hef
      subst hef
      simp [dispatch, eraseDataChannel, mapFind_eraseKey_self]

/-- Registry state holding a live web socket under handle 1. -/
def c5live : RegState := (runOp (.createWS true 9) initRegState).2.1

/-- The same state after erasing handle 1 through the registry. -/
def c5erased : RegState := eraseWebSocket c5live 1

theorem claim_c5_witness :
    eraseChannel c5live 1 = some c5erased ∧
    dispatch c5erased 5 (.openP 1) = none :=
  ⟨by decide, (claim_c5 c5live 5 (.openP 1)).2 c5erased (by decide)⟩

/-- C10: on a live channel handle, rtcSendMessage returns Invalid (-1)
exactly when the data pointer is null and the size is nonzero; a null
data pointer with size 0 is accepted, the channel receives an empty
Binary message (which it forwards by the send rules), and the call
returns Success. -/
theorem claim_c10 (st : RegState) (id : Int) (ck : ChanKind) (c : ChanObj)
    (hlive : getChannelObj st id = some (ck, c)) :
    (∀ (data : Option (List Nat)) (size hostRet : Int),
      (runOp (.sendMsg id data size hostRet) st).1 = RTC_ERR_INVALID ↔
        (data = none ∧ size ≠ 0)) ∧
    (∀ hostRet : Int, runOp (.sendMsg id none 0 hostRet) st =
      (RTC_ERR_SUCCESS, st,
        (match ck with
          | .dcK => DataChannel_send c (.bin []) hostRet
          | .wsK => WebSocket_send c (.bin []) hostRet).2.toList)) ∧
    sendMessageArg none 0 = some (.bin []) := by
  refine ⟨?_, ?_, by decide⟩
  · intro data size hostRet
    rcases data with _ | d
    · by_cases hs : size = 0
      · subst hs
        simp [runOp, hlive, sendMessageArg, RTC_ERR_INVALID, RTC_ERR_SUCCESS]
      · simp [runOp, hlive, sendMessageArg, hs]
    · simp [runOp, hlive, sendMessageArg, RTC_ERR_INVALID, RTC_ERR_SUCCESS]
  · intro hostRet
    have harg : sendMessageArg none 0 = some (.bin []) := by decide
    simp [runOp, hlive, harg]

/-- Registry state holding a live web socket (transport id 3) under
handle 1. -/
def c10st : RegState := (runOp (.createWS true 3) initRegState).2.1

theorem claim_c10_witness :
    getChannelObj c10st 1 =
      some (.wsK, ⟨3, false, [], none, none, none, none, none⟩) ∧
    ((runOp (.sendMsg 1 none 5 0) c10st).1 = RTC_ERR_INVALID ↔
      ((none : Option (List Nat)) = none ∧ (5 : Int) ≠ 0)) ∧
    runOp (.sendMsg 1 none 0 4) c10st =
      (RTC_ERR_SUCCESS, c10st, [.wsSendBin 3 []]) :=
  ⟨by decide,
   (claim_c10 c10st 1 .wsK ⟨3, false, [], none, none, none, none, none⟩
     (by decide)).1 none 5 0,
   by simpa using (claim_c10 c10st 1 .wsK
     ⟨3, false, [], none, none, none, none, none⟩ (by decide)).2.1 4⟩

theorem mapFind_none_gt {α : Type} {m : List (Int × α)} {n : Int}
    (hb : keysBound m n) : mapFind m (n + 1) = none :=
  mapFind_none_of_keysBound hb (by omega)

theorem mapFind_cons_ne {α : Type} {k i : Int} (v : α) (m : List (Int × α))
    (h : ¬ k = i) : mapFind ((k, v) :: m) i = mapFind m i := by
  simp [mapFind, h]

theorem keysBound_cons {α : Type} {m : List (Int × α)} {n : Int} (v : α)
    (hb : keysBound m n) (h0 : 0 ≤ n) : keysBound ((n + 1, v) :: m) (n + 1) := by
  intro p hp
  rcases List.mem_cons.mp hp with h | h
  · subst h
    exact ⟨by simp; omega, by simp⟩
  · exact ⟨(hb p h).1, by have := (hb p h).2; omega⟩

theorem goodState_emplacePC {st : RegState} (hg : goodState st) :
    goodState (emplacePeerConnection st).2 := by
  obtain ⟨h0, hpc, hdc, hws, hd1, hd2⟩ := hg
  have fpc := mapFind_none_gt hpc
  have fws := mapFind_none_gt hws
  refine ⟨by simp [emplacePeerConnection]; omega, ?_, ?_, ?_, ?_, ?_⟩ <;>
    simp only [emplacePeerConnection, mapEmplace_not_found _ fpc]
  · exact keysBound_cons _ hpc h0
  · exact keysBound_mono hdc (by omega)
  · exact keysBound_mono hws (by omega)
  · intro p hp
    have hne : ¬ st.lastId + 1 = p.1 := by
      have := (hdc p hp).2
      omega
    rw [mapFind_cons_ne _ _ hne]
    exact hd1 p hp
  · intro p hp
    rcases List.mem_cons.mp hp with h | h
    · rw [h]
      exact fws
    · exact hd2 p h

theorem goodState_emplaceDC {st : RegState} (c : ChanObj)
    (hg : goodState st) : goodState (emplaceDataChannel st c).2 := by
  obtain ⟨h0, hpc, hdc, hws, hd1, hd2⟩ := hg
  have fpc := mapFind_none_gt hpc
  have fdc := mapFind_none_gt hdc
  have fws := mapFind_none_gt hws
  refine ⟨by simp [emplaceDataChannel]; omega, ?_, ?_, ?_, ?_, ?_⟩ <;>
    simp only [emplaceDataChannel, mapEmplace_not_found _ fdc]
  · exact keysBound_mono hpc (by omega)
  · exact keysBound_cons _ hdc h0
  · exact keysBound_mono hws (by omega)
  · intro p hp
    rcases List.mem_cons.mp hp with h | h
    · rw [h]
      exact ⟨fpc, fws⟩
    · exact hd1 p h
  · exact hd2

theorem goodState_emplaceWS {st : RegState} (c : ChanObj)
    (hg : goodState st) : goodState (emplaceWebSocket st c).2 := by
  obtain ⟨h0, hpc, hdc, hws, hd1, hd2⟩ := hg
  have fws := mapFind_none_gt hws
  refine ⟨by simp [emplaceWebSocket]; omega, ?_, ?_, ?_, ?_, ?_⟩ <;>
    simp only [emplaceWebSocket, mapEmplace_not_found _ fws]
  · exact keysBound_mono hpc (by omega)
  · exact keysBound_mono hdc (by omega)
  · exact keysBound_cons _ hws h0
  · intro p hp
    have hne : ¬ st.lastId + 1 = p.1 := by
      have := (hdc p hp).2
      omega
    rw [mapFind_cons_ne _ _ hne]
    exact hd1 p hp
  · intro p hp
    have hne : ¬ st.lastId + 1 = p.1 := by
      have := (hpc p hp).2
      omega
    rw [mapFind_cons_ne _ _ hne]
    exact hd2 p hp

theorem goodState_erasePC {st : RegState} (pc : Int) (hg : goodState st) :
    goodState (erasePeerConnection st pc) := by
  obtain ⟨h0, hpc, hdc, hws, hd1, hd2⟩ := hg
  refine ⟨h0, keysBound_eraseKey hpc, hdc, hws, ?_, ?_⟩
  · intro p hp
    exact ⟨mapFind_eraseKey_none (hd1 p hp).1, (hd1 p hp).2⟩
  · intro p hp
    exact hd2 p (mem_mapEraseKey hp)

theorem goodState_eraseDC {st : RegState} (dc : Int) (hg : goodState st) :
    goodState (eraseDataChannel st dc) := by
  obtain ⟨h0, hpc, hdc, hws, hd1, hd2⟩ := hg
  exact ⟨h0, hpc, keysBound_eraseKey hdc, hws,
    fun p hp => hd1 p (mem_mapEraseKey hp), hd2⟩

theorem goodState_eraseWS {st : RegState} (ws : Int) (hg : goodState st) :
    goodState (eraseWebSocket st ws) := by
  obtain ⟨h0, hpc, hdc, hws, hd1, hd2⟩ := hg
  refine ⟨h0, hpc, hdc, keysBound_eraseKey hws, ?_, ?_⟩
  · intro p hp
    exact ⟨(hd1 p hp).1, mapFind_eraseKey_none (hd1 p hp).2⟩
  · intro p hp
    exact mapFind_eraseKey_none (hd2 p hp)

theorem goodState_updateChan {st : RegState} (ck : ChanKind) (id : Int)
    (f : ChanObj → ChanObj) (hg : goodState st) :
    goodState (updateChan st ck id f) := by
  obtain ⟨h0, hpc, hdc, hws, hd1, hd2⟩ := hg
  cases ck
  · refine ⟨h0, hpc, keysBound_mapUpdate hdc, hws, ?_, hd2⟩
    intro p hp
    obtain ⟨v, hv⟩ := mem_mapUpdate hp
    exact hd1 (p.1, v) hv
  · refine ⟨h0, hpc, hdc, keysBound_mapUpdate hws, ?_, ?_⟩
    · intro p hp
      exact ⟨(hd1 p hp).1, mapFind_mapUpdate_none (hd1 p hp).2⟩
    · intro p hp
      exact mapFind_mapUpdate_none (hd2 p hp)

theorem runOp_lastId (op : ApiOp) (st : RegState) :
    ((runOp op st).2.1.lastId = st.lastId ∧
      (isCreate op = true → (runOp op st).1 < 0)) ∨
    ((runOp op st).1 = st.lastId + 1 ∧
      (runOp op st).2.1.lastId = st.lastId + 1 ∧ isCreate op = true) := by
  cases op with
  | createPC hostOk =>
    cases hostOk with
    | false =>
      left
      refine ⟨rfl, fun _ => ?_⟩
      norm_num [runOp, RTC_ERR_FAILURE]
    | true => exact Or.inr ⟨rfl, rfl, rfl⟩
  | createDC pc bothLimits jsId label =>
    rcases hf : mapFind st.peerConnectionMap pc with _ | u
    · left
      refine ⟨?_, fun _ => ?_⟩ <;> simp [runOp, hf, RTC_ERR_INVALID]
    · cases bothLimits with
      | false =>
        right
        refine ⟨?_, ?_, rfl⟩ <;> simp [runOp, hf, emplaceDataChannel]
      | true =>
        left
        refine ⟨?_, fun _ => ?_⟩ <;> simp [runOp, hf, RTC_ERR_INVALID]
  | createWS supported jsId =>
    cases supported with
    | false =>
      left
      refine ⟨rfl, fun _ => ?_⟩
      norm_num [runOp, RTC_ERR_FAILURE]
    | true => exact Or.inr ⟨rfl, rfl, rfl⟩
  | closePC pc =>
    left
    rcases hf : mapFind st.peerConnectionMap pc with _ | u <;>
      simp [runOp, hf, isCreate]
  | deletePC pc =>
    left
    rcases hf : mapFind st.peerConnectionMap pc with _ | u <;>
      simp [runOp, hf, isCreate, erasePeerConnection]
  | getLocalDesc pc hostDesc buffer size =>
    left
    rcases hf : mapFind st.peerConnectionMap pc with _ | u
    · simp [runOp, hf, isCreate]
    · rcases hostDesc with _ | d <;> simp [runOp, hf, isCreate]
  | setCb id k cb =>
    left
    rcases hf : getChannelObj st id with _ | p
    · simp [runOp, hf, isCreate]
    · obtain ⟨ck, c⟩ := p
      cases ck <;> simp [runOp, hf, isCreate, updateChan]
  | sendMsg id data size hostRet =>
    left
    rcases hf : getChannelObj st id with _ | p
    · simp [runOp, hf, isCreate]
    · obtain ⟨ck, c⟩ := p
      rcases ha : sendMessageArg data size with _ | m <;>
        cases ck <;> simp [runOp, hf, ha, isCreate]
  | closeChan id =>
    left
    rcases hf : getChannelObj st id with _ | p
    · simp [runOp, hf, isCreate]
    · obtain ⟨ck, c⟩ := p
      cases ck <;> simp [runOp, hf, isCreate, updateChan]
  | deleteChan id =>
    left
    rcases hf : getChannelObj st id with _ | p
    · simp [runOp, hf, isCreate]
    · obtain ⟨ck, c⟩ := p
      cases ck <;>
        simp [runOp, hf, isCreate, eraseDataChannel, eraseWebSocket]
  | getBufAmt id hostRet =>
    left
    rcases hf : getChannelObj st id with _ | p
    · simp [runOp, hf, isCreate]
    · obtain ⟨ck, c⟩ := p
      by_cases hm : c.mId = 0 <;> simp [runOp, hf, hm, isCreate]
  | setLowThreshold id amount =>
    left
    rcases hf : getChannelObj st id with _ | p
    · simp [runOp, hf, isCreate]
    · obtain ⟨ck, c⟩ := p
      by_cases hm : c.mId = 0 <;> simp [runOp, hf, hm, isCreate]
  | deleteDC dc =>
    left
    rcases hf : mapFind st.dataChannelMap dc with _ | c <;>
      simp [runOp, hf, isCreate, eraseDataChannel]
  | getDCLabel dc buffer size =>
    left
    rcases hf : mapFind st.dataChannelMap dc with _ | c <;>
      simp [runOp, hf, isCreate]
  | deleteWS ws =>
    left
    rcases hf : mapFind st.webSocketMap ws with _ | c <;>
      simp [runOp, hf, isCreate, eraseWebSocket]

theorem goodState_runOp (op : ApiOp) (st : RegState) (hg : goodState st) :
    goodState (runOp op st).2.1 := by
  cases op with
  | createPC hostOk =>
    cases hostOk with
    | false => simpa [runOp] using hg
    | true => simpa [runOp] using goodState_emplacePC hg
  | createDC pc bothLimits jsId label =>
    rcases hf : mapFind st.peerConnectionMap pc with _ | u
    · simpa [runOp, hf] using hg
    · cases bothLimits with
      | false => simpa [runOp, hf] using goodState_emplaceDC _ hg
      | true => simpa [runOp, hf] using hg
  | createWS supported jsId =>
    cases supported with
    | false => simpa [runOp] using hg
    | true => simpa [runOp] using goodState_emplaceWS _ hg
  | closePC pc =>
    rcases hf : mapFind st.peerConnectionMap pc with _ | u <;>
      simpa [runOp, hf] using hg
  | deletePC pc =>
    rcases hf : mapFind st.peerConnectionMap pc with _ | u
    · simpa [runOp, hf] using hg
    · simpa [runOp, hf] using goodState_erasePC pc hg
  | getLocalDesc pc hostDesc buffer size =>
    rcases hf : mapFind st.peerConnectionMap pc with _ | u
    · simpa [runOp, hf] using hg
    · rcases hostDesc with _ | d <;> simpa [runOp, hf] using hg
  | setCb id k cb =>
    rcases hf : getChannelObj st id with _ | p
    · simpa [runOp, hf] using hg
    · obtain ⟨ck, c⟩ := p
      simpa [runOp, hf] using
        goodState_updateChan ck id (fun c => setChanCb c k cb) hg
  | sendMsg id data size hostRet =>
    rcases hf : getChannelObj st id with _ | p
    · simpa [runOp, hf] using hg
    · obtain ⟨ck, c⟩ := p
      rcases ha : sendMessageArg data size with _ | m <;>
        cases ck <;> simpa [runOp, hf, ha] using hg
  | closeChan id =>
    rcases hf : getChannelObj st id with _ | p
    · simpa [runOp, hf] using hg
    · obtain ⟨ck, c⟩ := p
      simpa [runOp, hf] using goodState_updateChan ck id DataChannel_close hg
  | deleteChan id =>
    rcases hf : getChannelObj st id with _ | p
    · simpa [runOp, hf] using hg
    · obtain ⟨ck, c⟩ := p
      cases ck with
      | dcK => simpa [runOp, hf] using goodState_eraseDC id hg
      | wsK => simpa [runOp, hf] using goodState_eraseWS id hg
  | getBufAmt id hostRet =>
    rcases hf : getChannelObj st id with _ | p
    · simpa [runOp, hf] using hg
    · obtain ⟨ck, c⟩ := p
      by_cases hm : c.mId = 0 <;> simpa [runOp, hf, hm] using hg
  | setLowThreshold id amount =>
    rcases hf : getChannelObj st id with _ | p
    · simpa [runOp, hf] using hg
    · obtain ⟨ck, c⟩ := p
      by_cases hm : c.mId = 0 <;> simpa [runOp, hf, hm] using hg
  | deleteDC dc =>
    rcases hf : mapFind st.dataChannelMap dc with _ | c
    · simpa [runOp, hf] using hg
    · simpa [runOp, hf] using goodState_eraseDC dc hg
  | getDCLabel dc buffer size =>
    rcases hf : mapFind st.dataChannelMap dc with _ | c <;>
      simpa [runOp, hf] using hg
  | deleteWS ws =>
    rcases hf : mapFind st.webSocketMap ws with _ | c
    · simpa [runOp, hf] using hg
    · simpa [runOp, hf] using goodState_eraseWS ws hg

theorem execTrace_good (ops : List ApiOp) :
    ∀ st : RegState, goodState st →
      List.Chain' (fun a b : Int => a < b)
        (st.lastId :: (execTrace st ops).2) ∧
      goodState (execTrace st ops).1 := by
  induction ops with
  | nil =>
    intro st hg
    exact ⟨List.chain'_singleton _, hg⟩
  | cons op ops ih =>
    intro st hg
    have hg' := goodState_runOp op st hg
    obtain ⟨ihc, ihg⟩ := ih (runOp op st).2.1 hg'
    rcases runOp_lastId op st with ⟨heq, hfail⟩ | ⟨hr, heq, hc⟩
    · have hcond : (isCreate op && decide (0 < (runOp op st).1)) = false := by
        cases hco : isCreate op
        · simp
        · have hlt := hfail hco
          simp only [Bool.true_and, decide_eq_false_iff_not]
          omega
      refine ⟨?_, by simpa [execTrace] using ihg⟩
      have hlist : (execTrace st (op :: ops)).2 =
          (execTrace (runOp op st).2.1 ops).2 := by
        simp [execTrace, hcond]
      rw [hlist]
      rw [heq] at ihc
      exact ihc
    · have h0 : (0 : Int) ≤ st.lastId := hg.1
      have hcond : (isCreate op && decide (0 < (runOp op st).1)) = true := by
        rw [hc, hr]
        simp only [Bool.true_and, decide_eq_true_eq]
        omega
      refine ⟨?_, by simpa [execTrace] using ihg⟩
      have hlist : (execTrace st (op :: ops)).2 =
          (runOp op st).1 :: (execTrace (runOp op st).2.1 ops).2 := by
        simp [execTrace, hcond]
      rw [hlist]
      rw [heq] at ihc
      refine List.chain'_cons.mpr ⟨?_, ?_⟩
      · rw [hr]
        omega
      · rw [hr]
        exact ihc

theorem chain_lt_head (a : Int) (l : List Int)
    (h : List.Chain' (fun x y : Int => x < y) (a :: l)) : ∀ b ∈ l, a < b := by
  induction l generalizing a with
  | nil =>
    intro b hb
    simp at hb
  | cons c l ih =>
    intro b hb
    have hac : a < c := (List.chain'_cons.mp h).1
    rcases List.mem_cons.mp hb with rfl | hb
    · exact hac
    · exact lt_trans hac (ih c (List.chain'_cons.mp h).2 b hb)

theorem runOp_create_fail (op : ApiOp) (st : RegState) (hg : goodState st)
    (hc : isCreate op = true) (hf : (runOp op st).1 < 0) :
    (runOp op st).2 = (st, []) := by
  have h0 : (0 : Int) ≤ st.lastId := hg.1
  cases op <;> try simp [isCreate] at hc
  case createPC hostOk =>
    cases hostOk with
    | false => rfl
    | true =>
      exfalso
      have heq : (runOp (.createPC true) st).1 = st.lastId + 1 := rfl
      rw [heq] at hf
      omega
  case createDC pc bothLimits jsId label =>
    rcases hfind : mapFind st.peerConnectionMap pc with _ | u
    · simp [runOp, hfind]
    · cases bothLimits with
      | true => simp [runOp, hfind]
      | false =>
        exfalso
        have heq : (runOp (.createDC pc false jsId label) st).1 =
            st.lastId + 1 := by
          simp [runOp, hfind, emplaceDataChannel]
        rw [heq] at hf
        omega
  case createWS supported jsId =>
    cases supported with
    | false => rfl
    | true =>
      exfalso
      have heq : (runOp (.createWS true jsId) st).1 = st.lastId + 1 := rfl
      rw [heq] at hf
      omega

/-- C8: starting from any well-formed registry state, the handles
returned by successful creates along any operation sequence form a
strictly increasing chain above the current counter (so every handle is
positive, strictly greater than every handle returned before it, and
never equal to a live handle of any resource kind), the well-formedness
invariant — including that no two resource kinds share a handle — is
preserved, a create that fails returns its error without consuming a
counter value or touching the state, and a create that succeeds returns
exactly the incremented shared counter, a handle dead in the pre-state. -/
theorem claim_c8 (st : RegState) (ops : List ApiOp) (hg : goodState st) :
    List.Chain' (fun a b : Int => a < b)
      (st.lastId :: (execTrace st ops).2) ∧
    (∀ h ∈ (execTrace st ops).2, st.lastId < h ∧ 0 < h) ∧
    goodState (execTrace st ops).1 ∧
    (∀ op : ApiOp, isCreate op = true → (runOp op st).1 < 0 →
      (runOp op st).2 = (st, [])) ∧
    (∀ op : ApiOp, isCreate op = true → 0 < (runOp op st).1 →
      (runOp op st).1 = st.lastId + 1 ∧ deadAll st (runOp op st).1) := by
  obtain ⟨hchain, hgood⟩ := execTrace_good ops st hg
  have h0 : (0 : Int) ≤ st.lastId := hg.1
  refine ⟨hchain, ?_, hgood, ?_, ?_⟩
  · intro h hmem
    have := chain_lt_head st.lastId (execTrace st ops).2 hchain h hmem
    exact ⟨this, by omega⟩
  · intro op hc hf
    exact runOp_create_fail op st hg hc hf
  · intro op hc hs
    rcases runOp_lastId op st with ⟨heq, hfail⟩ | ⟨hr, heq2, _⟩
    · exact absurd (hfail hc) (by omega)
    · refine ⟨hr, ?_⟩
      rw [hr]
      exact ⟨mapFind_none_gt hg.2.1, mapFind_none_gt hg.2.2.1,
        mapFind_none_gt hg.2.2.2.1⟩

/-- A sample operation sequence: two peer connection creates (one
rejected by the host), a web socket create, a data channel create on the
first peer connection, and a channel delete. -/
def c8ops : List ApiOp :=
  [.createPC true, .createPC false, .createWS true 4,
   .createDC 1 false 6 [], .deleteChan 3]

theorem claim_c8_witness :
    goodState initRegState ∧
    (List.Chain' (fun a b : Int => a < b)
        (initRegState.lastId :: (execTrace initRegState c8ops).2) ∧
      (∀ h ∈ (execTrace initRegState c8ops).2,
        initRegState.lastId < h ∧ 0 < h) ∧
      goodState (execTrace initRegState c8ops).1 ∧
      (∀ op : ApiOp, isCreate op = true →
        (runOp op initRegState).1 < 0 →
        (runOp op initRegState).2 = (initRegState, [])) ∧
      (∀ op : ApiOp, isCreate op = true →
        0 < (runOp op initRegState).1 →
        (runOp op initRegState).1 = initRegState.lastId + 1 ∧
          deadAll initRegState (runOp op initRegState).1)) :=
  ⟨by decide, claim_c8 initRegState c8ops (by decide)⟩
